import Mathlib

/-!
Verification development for the ESP32 quiz-motor firmware
(`src/esp32_quiz_motor/esp32_quiz_motor.ino`).

The firmware is shallowly embedded: Arduino `String` values become
`List Char`, the 32-bit unsigned millisecond clock becomes `Nat` with
explicit wraparound subtraction modulo 2^32, and each HTTP handler and
each section of `loop()` becomes a pure function on an explicit state
record.  The AccelStepper library is not part of the repository, so the
Motion Controller is modelled from the spec (section 4.1); everything
else is translated directly from the sketch.
-/

namespace QuizMotor

/-! ## Constants (lines 52-53, 64, 72, 94, 97 of the sketch) -/

def LEGACY_STEPS : Int := 68

def MAX_STEPS : Nat := 8192

/-- `TRIGGER_STATE = LOW` (= 0) in the sketch. -/
def TRIGGER_STATE : Int := 0

def VOTE_COOLDOWN : Nat := 3000

def LCD_PAGE_INTERVAL : Nat := 4000

def SCROLL_INTERVAL : Nat := 400

/-- 2^32, the modulus of `unsigned long` arithmetic on the ESP32. -/
def U32 : Nat := 4294967296

/-- Unsigned 32-bit subtraction `a - b`, as the sketch computes
`millis() - lastVoteTime` and the other deadline differences. -/
def usub32 (a b : Nat) : Nat := (a + (U32 - b % U32)) % U32

/-! ## Motion Controller

Modelled from the spec: the AccelStepper library sources are not in the
repository.  Spec section 4.1: `enqueueRelativeMove(delta)` sets
`targetPosition = currentPosition + delta`; `advanceOneTick` moves
`currentPosition` by at most one micro-step toward `targetPosition` per
invocation and does nothing when idle; outputs are explicit. -/

structure StepperState where
  currentPosition : Int
  targetPosition : Int
  outputsEnabled : Bool
  deriving DecidableEq, Repr

/-- Modelled from the spec: `stepper.enableOutputs()`. -/
def enableOutputs (s : StepperState) : StepperState :=
  { s with outputsEnabled := true }

/-- Modelled from the spec: `stepper.disableOutputs()`. -/
def disableOutputs (s : StepperState) : StepperState :=
  { s with outputsEnabled := false }

/-- Modelled from the spec: `stepper.move(delta)`etc sets the target from
the current position (`targetPosition = currentPosition + delta`). -/
def move (s : StepperState) (delta : Int) : StepperState :=
  { s with targetPosition := s.currentPosition + delta }

/-- `stepper.distanceToGo()`: steps remaining to the target. -/
def distanceToGo (s : StepperState) : Int :=
  s.targetPosition - s.currentPosition

/-- Modelled from the spec: one invocation of `stepper.run()` advances the
motor by at most one micro-step toward the target, stopping exactly there. -/
def runTick (s : StepperState) : StepperState :=
  if s.targetPosition = s.currentPosition then s
  else if s.currentPosition < s.targetPosition then
    { s with currentPosition := s.currentPosition + 1 }
  else
    { s with currentPosition := s.currentPosition - 1 }

/-- `n` consecutive invocations of `stepper.run()`. -/
def runN (s : StepperState) : Nat → StepperState
  | 0 => s
  | n + 1 => runN (runTick s) n

/-- Stepper state after `setup()`: position 0, idle, coils released. -/
def bootStepper : StepperState := ⟨0, 0, false⟩

/-! ## Vote Sensor Monitor (lines 66-72 and 396-423 of the sketch) -/

structure VoteState where
  pendingVotesA : Nat
  pendingVotesB : Nat
  lastLdrState1 : Int
  lastLdrState2 : Int
  lastVoteTime : Nat
  deriving DecidableEq, Repr

/-- Global sensor state at boot (lines 66-71): counters zero, both
`lastLdrState` variables at the unknown value `-1`, `lastVoteTime = 0`. -/
def bootVotes : VoteState := ⟨0, 0, -1, -1, 0⟩

/-- The idle-motor sensor branch of `loop()` (lines 396-423): read both
LDR levels (`r1`, `r2`), fire a vote on a transition into the trigger
level if the shared cooldown has elapsed, enqueue the feedback move
(`+68` for sensor 1, `-68` for sensor 2), and record the observed levels.
Sensor 2 is checked after sensor 1, so a vote on sensor 1 refreshes
`lastVoteTime` before sensor 2's cooldown test. -/
def sensorPoll (vs : VoteState) (sp : StepperState) (now : Nat) (r1 r2 : Int) :
    VoteState × StepperState :=
  let step1 :=
    if r1 = TRIGGER_STATE ∧ vs.lastLdrState1 ≠ TRIGGER_STATE then
      if VOTE_COOLDOWN < usub32 now vs.lastVoteTime then
        ({ vs with pendingVotesA := vs.pendingVotesA + 1, lastVoteTime := now },
         move (enableOutputs sp) LEGACY_STEPS)
      else (vs, sp)
    else (vs, sp)
  let vs1 := step1.1
  let sp1 := step1.2
  let step2 :=
    if r2 = TRIGGER_STATE ∧ vs1.lastLdrState2 ≠ TRIGGER_STATE then
      if VOTE_COOLDOWN < usub32 now vs1.lastVoteTime then
        ({ vs1 with pendingVotesB := vs1.pendingVotesB + 1, lastVoteTime := now },
         move (enableOutputs sp1) (-LEGACY_STEPS))
      else (vs1, sp1)
    else (vs1, sp1)
  let vs2 := step2.1
  let sp2 := step2.2
  ({ vs2 with lastLdrState1 := r1, lastLdrState2 := r2 }, sp2)

/-- Folds `sensorPoll` over a list of observations `(now, r1, r2)`:
the sensor branch across several idle loop iterations. -/
def pollTrace (vs : VoteState) (sp : StepperState) :
    List (Nat × Int × Int) → VoteState × StepperState
  | [] => (vs, sp)
  | (now, r1, r2) :: rest =>
    let p := sensorPoll vs sp now r1 r2
    pollTrace p.1 p.2 rest

/-! ## Display Presenter: question formatting (lines 102-134) -/

/-- Result of `formatQuestion()`: the two static lines and the scroll flag. -/
structure QFormat where
  qLine1 : List Char
  qLine2 : List Char
  scrollQ : Bool
  deriving DecidableEq, Repr

/-- The downward search loop of `formatQuestion` (lines 111-117):
`for (i = start; i >= 0; i--) if (quizText[i] == ' ') return i;`
returning `-1` when no space is found at an index `≤ start`. -/
def findLastSpaceDown (cs : List Char) : Nat → Int
  | 0 => if cs.getD 0 'x' = ' ' then 0 else -1
  | n + 1 => if cs.getD (n + 1) 'x' = ' ' then ((n : Int) + 1) else findLastSpaceDown cs n

/-- `formatQuestion()` (lines 102-134): text of length ≤ 16 is one static
line; length 17-32 splits at the last space at index ≤ min(16, len-1)
provided that index is strictly positive and both halves fit in 16
columns, else scrolls; length > 32 always scrolls. -/
def formatQuestion (t : List Char) : QFormat :=
  let len := t.length
  if len ≤ 16 then ⟨t, [], false⟩
  else if len ≤ 32 then
    let splitIdx := findLastSpaceDown t (min 16 (len - 1))
    if 0 < splitIdx then
      let firstPart := t.take splitIdx.toNat
      let secondPart := t.drop (splitIdx.toNat + 1)
      if firstPart.length ≤ 16 ∧ secondPart.length ≤ 16 then
        ⟨firstPart, secondPart, false⟩
      else ⟨[], [], true⟩
    else ⟨[], [], true⟩
  else ⟨[], [], true⟩

/-! ## Display Presenter: state and the `/quiz` handler -/

structure DisplayState where
  quizText : List Char
  ans1Text : List Char
  ans2Text : List Char
  qLine1 : List Char
  qLine2 : List Char
  scrollQ : Bool
  scrollA1 : Bool
  scrollA2 : Bool
  showQuestion : Bool
  lastPageSwap : Nat
  lastLcdUpdate : Nat
  scrollPosQ : Nat
  scrollPosA1 : Nat
  scrollPosA2 : Nat
  deriving DecidableEq, Repr

/-- The separator `"   ***   "` appended to a buffer entering scroll mode
(lines 204-206). -/
def SEP : List Char := "   ***   ".toList

/-- Display globals at boot (lines 82-100). -/
def bootDisplay : DisplayState where
  quizText := "Attesa quiz...".toList
  ans1Text := "Pronto".toList
  ans2Text := "online".toList
  qLine1 := "Attesa quiz...".toList
  qLine2 := []
  scrollQ := false
  scrollA1 := false
  scrollA2 := false
  showQuestion := true
  lastPageSwap := 0
  lastLcdUpdate := 0
  scrollPosQ := 0
  scrollPosA1 := 0
  scrollPosA2 := 0

/-- `handleQuiz()` (lines 193-215): update whichever of `q`, `a1`, `a2`
is present, recompute the question layout and the answer scroll flags,
append the separator to every buffer currently in scroll mode, force the
question page (`lastPageSwap = millis() - LCD_PAGE_INTERVAL`) and reset
the three scroll cursors. -/
def handleQuiz (q a1 a2 : Option (List Char)) (d : DisplayState) (now : Nat) :
    DisplayState :=
  let quizT := match q with | some s => s | none => d.quizText
  let ans1T := match a1 with | some s => s | none => d.ans1Text
  let ans2T := match a2 with | some s => s | none => d.ans2Text
  let f := formatQuestion quizT
  let sA1 := 16 < ans1T.length
  let sA2 := 16 < ans2T.length
  { quizText := if f.scrollQ then quizT ++ SEP else quizT
    ans1Text := if sA1 then ans1T ++ SEP else ans1T
    ans2Text := if sA2 then ans2T ++ SEP else ans2T
    qLine1 := f.qLine1
    qLine2 := f.qLine2
    scrollQ := f.scrollQ
    scrollA1 := sA1
    scrollA2 := sA2
    showQuestion := true
    lastPageSwap := usub32 now LCD_PAGE_INTERVAL
    lastLcdUpdate := d.lastLcdUpdate
    scrollPosQ := 0
    scrollPosA1 := 0
    scrollPosA2 := 0 }

/-! ## Command Server: `/step`, `/move`, `/poll_votes` handlers -/

/-- Reply of the `/move` handler, tagging which of its messages is sent
(the payload carried by the error text is kept). -/
inductive MoveReply where
  | missingParam : MoveReply
  | notNumeric : List Char → MoveReply
  | tooMany : Int → MoveReply
  | okMove : MoveReply
  deriving DecidableEq, Repr

/-- HTTP status code of each `/move` reply. -/
def MoveReply.code : MoveReply → Nat
  | .okMove => 200
  | _ => 400

/-- Whitespace as skipped by `strtol`. -/
def isCSpace (c : Char) : Bool :=
  c = ' ' || c = '\t' || c = '\n' || c = '\r' || c.val = 11 || c.val = 12

/-- Value of a digit run, most significant first. -/
def digitsVal (ds : List Char) : Nat :=
  ds.foldl (fun a c => a * 10 + (c.toNat - 48)) 0

/-- Arduino `String::toInt()` (`atol`): skip leading whitespace, accept an
optional sign, read the leading digit run, and yield 0 when no digits
follow (overflow clamping is irrelevant at the magnitudes compared here). -/
def arduinoToInt (cs : List Char) : Int :=
  let cs1 := cs.dropWhile isCSpace
  match cs1 with
  | '-' :: rest => -(digitsVal (rest.takeWhile Char.isDigit) : Int)
  | '+' :: rest => (digitsVal (rest.takeWhile Char.isDigit) : Int)
  | _ => (digitsVal (cs1.takeWhile Char.isDigit) : Int)

/-- `handleMove()` (lines 164-190): 400 when the `steps` argument is
missing, when `raw.toInt() == 0 && raw != "0"`, or when
`abs(steps) > MAX_STEPS`; otherwise enable outputs and enqueue
`stepper.move(steps)`. -/
def handleMove (arg : Option (List Char)) (sp : StepperState) :
    MoveReply × StepperState :=
  match arg with
  | none => (MoveReply.missingParam, sp)
  | some raw =>
    let steps := arduinoToInt raw
    if steps = 0 ∧ raw ≠ "0".toList then (MoveReply.notNumeric raw, sp)
    else if MAX_STEPS < steps.natAbs then (MoveReply.tooMany steps, sp)
    else (MoveReply.okMove, move (enableOutputs sp) steps)

/-- `handleStep()` (lines 154-161): always enables outputs and enqueues a
relative move of `LEGACY_STEPS` (= 68). -/
def handleStep (sp : StepperState) : StepperState :=
  move (enableOutputs sp) LEGACY_STEPS

/-- The JSON body `{"A":<a>,"B":<b>}` sent by `/poll_votes`. -/
def votesJson (a b : Nat) : String :=
  "\x7b\"A\":" ++ Nat.repr a ++ ",\"B\":" ++ Nat.repr b ++ "\x7d"

/-- `handlePollVotes()` (lines 218-223): build the JSON body from the two
pending counters, then zero both counters, then send the body. -/
def handlePollVotes (vs : VoteState) : String × VoteState :=
  let json := votesJson vs.pendingVotesA vs.pendingVotesB
  (json, { vs with pendingVotesA := 0, pendingVotesB := 0 })

/-! ## Display Presenter: line rendering and the LCD section of `loop()` -/

/-- `printLcdLine()` (lines 314-333).  Returns the characters written to
the row and the new value of the by-reference scroll cursor.  Static mode
prints the text followed by space padding up to column 16; scroll mode
prints `text.substring(pos, pos+16)` completed by a wrapped prefix when
short, then advances the cursor, resetting it to 0 at the text length. -/
def printLcdLine (text : List Char) (pos : Nat) (scroll : Bool) :
    List Char × Nat :=
  if scroll = false then
    (text ++ List.replicate (16 - text.length) ' ', pos)
  else
    let disp := (text.take (pos + 16)).drop pos
    let disp := if disp.length < 16 then disp ++ text.take (16 - disp.length) else disp
    let pos1 := pos + 1
    (disp, if text.length ≤ pos1 then 0 else pos1)

/-- The redraw triggered every `SCROLL_INTERVAL` (lines 370-385): only
the cursor updates performed through `printLcdLine`'s reference argument
and the `lastLcdUpdate` stamp matter to the state. -/
def lcdRedraw (d : DisplayState) (now : Nat) : DisplayState :=
  if d.showQuestion then
    if d.scrollQ then
      { d with scrollPosQ := (printLcdLine d.quizText d.scrollPosQ true).2,
               lastLcdUpdate := now }
    else
      { d with scrollPosQ :=
          (printLcdLine d.qLine2 (printLcdLine d.qLine1 d.scrollPosQ false).2 false).2,
               lastLcdUpdate := now }
  else
    { d with scrollPosA1 := (printLcdLine d.ans1Text d.scrollPosA1 d.scrollA1).2,
             scrollPosA2 := (printLcdLine d.ans2Text d.scrollPosA2 d.scrollA2).2,
             lastLcdUpdate := now }

/-- The LCD section of `loop()` (lines 343-385): dynamic page-swap
interval, page swap with cursor reset, and the periodic redraw. -/
def lcdStep (d : DisplayState) (now : Nat) : DisplayState :=
  let currentInterval :=
    if d.showQuestion then
      if d.scrollQ then d.quizText.length * SCROLL_INTERVAL + 1500
      else LCD_PAGE_INTERVAL
    else
      if d.scrollA1 ∨ d.scrollA2 then
        (max d.ans1Text.length d.ans2Text.length) * SCROLL_INTERVAL + 1500
      else LCD_PAGE_INTERVAL
  let d1 :=
    if currentInterval < usub32 now d.lastPageSwap then
      { d with showQuestion := !d.showQuestion, lastPageSwap := now,
               scrollPosQ := 0, scrollPosA1 := 0, scrollPosA2 := 0 }
    else d
  if SCROLL_INTERVAL < usub32 now d1.lastLcdUpdate then lcdRedraw d1 now else d1

/-! ## Main Loop Scheduler -/

/-- One HTTP request, as dispatched by `server.handleClient()`. -/
inductive Request where
  | root : Request
  | step : Request
  | moveReq : Option (List Char) → Request
  | quiz : Option (List Char) → Option (List Char) → Option (List Char) → Request
  | pollVotes : Request
  deriving DecidableEq, Repr

structure MachineState where
  stepper : StepperState
  votes : VoteState
  display : DisplayState
  deriving DecidableEq, Repr

/-- `server.handleClient()`: dispatch at most one pending request to its
handler (lines 298-302 register the routes). -/
def netStep (m : MachineState) (req : Option Request) (now : Nat) : MachineState :=
  match req with
  | none => m
  | some Request.root => m
  | some Request.step => { m with stepper := handleStep m.stepper }
  | some (Request.moveReq arg) => { m with stepper := (handleMove arg m.stepper).2 }
  | some (Request.quiz q a1 a2) => { m with display := handleQuiz q a1 a2 m.display now }
  | some Request.pollVotes => { m with votes := (handlePollVotes m.votes).2 }

/-- The LCD section of `loop()` applied inside the machine state. -/
def lcdPhase (m : MachineState) (now : Nat) : MachineState :=
  { m with display := lcdStep m.display now }

/-- The motor/sensor section of `loop()` (lines 387-424): while a move is
outstanding only `stepper.run()` executes; otherwise the coils are
released and the sensor branch runs. -/
def motorSensorStep (m : MachineState) (now : Nat) (r1 r2 : Int) : MachineState :=
  if distanceToGo m.stepper ≠ 0 then
    { m with stepper := runTick m.stepper }
  else
    let p := sensorPoll m.votes (disableOutputs m.stepper) now r1 r2
    { m with votes := p.1, stepper := p.2 }

/-- One full iteration of `loop()` (lines 338-425): network service, LCD
section, then the motor/sensor section. -/
def loopIteration (m : MachineState) (req : Option Request) (now : Nat)
    (r1 r2 : Int) : MachineState :=
  motorSensorStep (lcdPhase (netStep m req now) now) now r1 r2

/-- Machine state when `loop()` first runs after `setup()`. -/
def bootMachine : MachineState := ⟨bootStepper, bootVotes, bootDisplay⟩

/-! ## Spec-side definitions (for comparison with the source) -/

/-- Written from the claim wording only: a string is numeric when it is
an optional sign followed by one or more decimal digits. -/
def specNumeric (cs : List Char) : Bool :=
  match cs with
  | [] => false
  | c :: rest =>
    if c = '+' ∨ c = '-' then rest ≠ [] && rest.all Char.isDigit
    else cs.all Char.isDigit

/-! ## Helper lemmas -/

/-- Splitting a run of `stepper.run()` invocations. -/
theorem runN_add (a b : Nat) : ∀ s : StepperState, runN s (a + b) = runN (runN s a) b := by
  induction a with
  | zero =>
    intro s
    rw [Nat.zero_add]
    rfl
  | succ n ih =>
    intro s
    have h : n + 1 + b = (n + b) + 1 := by omega
    rw [h]
    show runN (runTick s) (n + b) = runN (runN (runTick s) n) b
    exact ih (runTick s)

/-- With fuel at least the remaining distance, `stepper.run()` brings the
motor exactly to its target and leaves the other fields alone. -/
theorem runN_reach (n : Nat) : ∀ (c t : Int) (o : Bool), (t - c).natAbs ≤ n →
    runN ⟨c, t, o⟩ n = ⟨t, t, o⟩ := by
  induction n with
  | zero =>
    intro c t o h
    have ht : t = c := by omega
    subst ht
    rfl
  | succ n ih =>
    intro c t o h
    show runN (runTick ⟨c, t, o⟩) n = _
    have hrt : runTick ⟨c, t, o⟩
        = if t = c then (⟨c, t, o⟩ : StepperState)
          else if c < t then ⟨c + 1, t, o⟩ else ⟨c - 1, t, o⟩ := rfl
    rw [hrt]
    split_ifs with h1 h2
    · subst h1
      exact ih _ _ o (by omega)
    · exact ih (c + 1) t o (by omega)
    · exact ih (c - 1) t o (by omega)

/-- Unsigned subtraction of 0 is the identity below 2^32. -/
theorem usub32_zero (now : Nat) (h : now < U32) : usub32 now 0 = now := by
  unfold usub32 U32 at *
  omega

/-- Unsigned subtraction of a value from itself is 0 below 2^32. -/
theorem usub32_self (now : Nat) (h : now < U32) : usub32 now now = 0 := by
  unfold usub32 U32 at *
  omega

/-! ## Claim theorems -/

/-- C1: for every `delta` with `|delta| ≤ MAX_STEPS`, starting from an
idle motor at position `p`, enqueueing `stepper.move(delta)` (as
`handleMove` does, outputs enabled first) and invoking `stepper.run()`
until idle leaves `currentPosition - p = delta` exactly; after `|delta|`
ticks the motor is idle and further ticks change nothing (no overshoot). -/
theorem C1_relative_move_exact (p delta : Int) (h : delta.natAbs ≤ MAX_STEPS) :
    (runN (move (enableOutputs ⟨p, p, false⟩) delta) delta.natAbs).currentPosition - p = delta
    ∧ distanceToGo (runN (move (enableOutputs ⟨p, p, false⟩) delta) delta.natAbs) = 0
    ∧ ∀ m, delta.natAbs ≤ m →
        runN (move (enableOutputs ⟨p, p, false⟩) delta) m
          = runN (move (enableOutputs ⟨p, p, false⟩) delta) delta.natAbs := by
  have hmv : move (enableOutputs ⟨p, p, false⟩) delta
      = (⟨p, p + delta, true⟩ : StepperState) := rfl
  have hr := runN_reach delta.natAbs p (p + delta) true (by omega)
  rw [hmv]
  refine ⟨?_, ?_, ?_⟩
  · rw [hr]
    show p + delta - p = delta
    omega
  · rw [hr]
    show p + delta - (p + delta) = 0
    omega
  · intro m hm
    obtain ⟨k, hk⟩ := Nat.exists_eq_add_of_le hm
    subst hk
    rw [runN_add, hr]
    exact runN_reach k (p + delta) (p + delta) true (by omega)

/-- C1 witness: a relative move of 5 from an idle motor at 0 ends at 5. -/
theorem C1_witness :
    (runN (move (enableOutputs ⟨0, 0, false⟩) 5) (Int.natAbs 5)).currentPosition - 0 = 5 :=
  (C1_relative_move_exact 0 5 (by decide)).1

/-- C4 counterexample: with the motor mid-move at position 0 and
outstanding target 100, a new relative request of 68 (the `/step`
magnitude) sets the target to 0 + 68 = 68, not to 100 + 68 = 168 as the
claim's "old target + delta" rule states. -/
theorem C4_counterexample :
    (move ⟨0, 100, true⟩ 68).targetPosition = 68
    ∧ (move ⟨0, 100, true⟩ 68).targetPosition ≠ 100 + 68 := by
  decide

/-- C4 amended: every relative move request (`/step`, `/move`, or a
sensor feedback move, all of which call `stepper.move`) computes the new
target from the current position: `targetPosition` becomes
`currentPosition + delta`, discarding the remaining distance of any
outstanding move rather than summing into the outstanding target. -/
theorem C4_amended (sp : StepperState) (delta : Int) :
    (move sp delta).targetPosition = sp.currentPosition + delta
    ∧ (move sp delta).currentPosition = sp.currentPosition
    ∧ handleStep sp = move (enableOutputs sp) LEGACY_STEPS :=
  ⟨rfl, rfl, rfl⟩

/-- C5: `/poll_votes` builds its JSON body from both pending counters
before zeroing both of them in the same operation, leaving the sensor
edge state alone; an immediate second drain therefore reports 0 for both
counters. -/
theorem C5_drain_snapshot_reset (vs : VoteState) :
    (handlePollVotes vs).1 = votesJson vs.pendingVotesA vs.pendingVotesB
    ∧ (handlePollVotes vs).2.pendingVotesA = 0
    ∧ (handlePollVotes vs).2.pendingVotesB = 0
    ∧ (handlePollVotes vs).2.lastLdrState1 = vs.lastLdrState1
    ∧ (handlePollVotes vs).2.lastLdrState2 = vs.lastLdrState2
    ∧ (handlePollVotes vs).2.lastVoteTime = vs.lastVoteTime
    ∧ (handlePollVotes (handlePollVotes vs).2).1 = votesJson 0 0 :=
  ⟨rfl, rfl, rfl, rfl, rfl, rfl, rfl⟩

/-- The `pendingVotesA` counter after one sensor poll: incremented by one
exactly when sensor 1 shows a covering transition with the cooldown
elapsed, untouched otherwise (sensor 2's branch only touches B). -/
theorem sensorPoll_A (vs : VoteState) (sp : StepperState) (now : Nat) (r1 r2 : Int) :
    (sensorPoll vs sp now r1 r2).1.pendingVotesA
      = if r1 = TRIGGER_STATE ∧ vs.lastLdrState1 ≠ TRIGGER_STATE
            ∧ VOTE_COOLDOWN < usub32 now vs.lastVoteTime
        then vs.pendingVotesA + 1 else vs.pendingVotesA := by
  simp only [sensorPoll]
  split_ifs <;> simp_all

/-- The observed level of sensor 1 is recorded unconditionally. -/
theorem sensorPoll_last1 (vs : VoteState) (sp : StepperState) (now : Nat) (r1 r2 : Int) :
    (sensorPoll vs sp now r1 r2).1.lastLdrState1 = r1 := by
  simp only [sensorPoll]

/-- The sensor branch never moves the rotor within the same iteration. -/
theorem sensorPoll_pos (vs : VoteState) (sp : StepperState) (now : Nat) (r1 r2 : Int) :
    (sensorPoll vs sp now r1 r2).2.currentPosition = sp.currentPosition := by
  simp only [sensorPoll]
  split_ifs <;> rfl

/-- C9: at boot both `lastLdrState` variables hold `-1` and
`lastVoteTime` holds 0, so a sensor already at the trigger level on the
first idle loop iteration registers a vote immediately once more than
3000 ms of uptime have elapsed, despite no covering transition having
occurred after startup. -/
theorem C9_boot_immediate_vote (now : Nat) (r2 : Int)
    (h1 : VOTE_COOLDOWN < now) (h2 : now < U32) :
    bootVotes.lastLdrState1 = -1
    ∧ bootVotes.lastLdrState2 = -1
    ∧ bootVotes.lastVoteTime = 0
    ∧ (sensorPoll bootVotes bootStepper now TRIGGER_STATE r2).1.pendingVotesA = 1 := by
  refine ⟨rfl, rfl, rfl, ?_⟩
  rw [sensorPoll_A]
  rw [if_pos ⟨rfl, by decide, by rw [show bootVotes.lastVoteTime = 0 from rfl, usub32_zero now h2]; exact h1⟩]
  rfl

/-- C2 counterexample: the request `/move?steps=00` carries a numeric
argument whose value 0 is within the safety bound, so the claim's "iff"
requires a success response with a move enqueued; the handler instead
answers 400 (its non-numeric message) and leaves the stepper untouched,
because its numeric test is `raw.toInt() == 0 && raw != "0"`. -/
theorem C2_counterexample :
    specNumeric ("00".toList) = true
    ∧ (arduinoToInt ("00".toList)).natAbs ≤ MAX_STEPS
    ∧ (handleMove (some ("00".toList)) bootStepper).1.code = 400
    ∧ (handleMove (some ("00".toList)) bootStepper).2 = bootStepper := by
  decide

/-- C2 amended: `/move` answers 400 and leaves the stepper untouched
exactly when `steps` is missing, or `raw.toInt()` is 0 while `raw` is not
the literal string "0" (this covers every non-numeric string but also
other spellings of zero such as "00"), or the parsed value exceeds
MAX_STEPS in magnitude; otherwise it enqueues the relative move of the
parsed value and reports success. -/
theorem C2_amended_validation (sp : StepperState) (raw : List Char) :
    ((handleMove none sp).1.code = 400 ∧ (handleMove none sp).2 = sp)
    ∧ ((handleMove (some raw) sp).1.code = 400
        ↔ ((arduinoToInt raw = 0 ∧ raw ≠ "0".toList)
            ∨ MAX_STEPS < (arduinoToInt raw).natAbs))
    ∧ ((handleMove (some raw) sp).1.code = 400 → (handleMove (some raw) sp).2 = sp)
    ∧ ((handleMove (some raw) sp).1.code ≠ 400
        → (handleMove (some raw) sp).1 = MoveReply.okMove
          ∧ (handleMove (some raw) sp).2 = move (enableOutputs sp) (arduinoToInt raw)) := by
  refine ⟨⟨rfl, rfl⟩, ?_, ?_, ?_⟩ <;>
    · simp only [handleMove]
      split_ifs with h1 h2 <;> simp_all [MoveReply.code] <;> try exact h1

/-- C2 witness: `/move?steps=70` is accepted and enqueues a move of 70. -/
theorem C2_witness :
    (handleMove (some ("70".toList)) bootStepper).1 = MoveReply.okMove
    ∧ (handleMove (some ("70".toList)) bootStepper).2
        = move (enableOutputs bootStepper) (arduinoToInt ("70".toList)) :=
  (C2_amended_validation bootStepper ("70".toList)).2.2.2 (by decide)

/-- Holding sensor 1 at the trigger level while its recorded previous
level already equals the trigger level produces no further A votes over
any sequence of sensor polls. -/
theorem pollTrace_hold (trace : List (Nat × Int × Int)) :
    ∀ (vs : VoteState) (sp : StepperState),
    vs.lastLdrState1 = TRIGGER_STATE →
    (∀ e ∈ trace, e.2.1 = TRIGGER_STATE) →
    (pollTrace vs sp trace).1.pendingVotesA = vs.pendingVotesA := by
  induction trace with
  | nil =>
    intro vs sp _ _
    rfl
  | cons e rest ih =>
    intro vs sp h1 h2
    obtain ⟨now, r1, r2⟩ := e
    have hr1 : r1 = TRIGGER_STATE := h2 (now, r1, r2) (List.mem_cons_self _ _)
    simp only [pollTrace]
    rw [ih _ _ (by rw [sensorPoll_last1]; exact hr1)
        (fun e he => h2 e (List.mem_cons_of_mem _ he))]
    rw [sensorPoll_A, if_neg (fun hc => hc.2.1 h1)]

/-- C3 amended: a vote on sensor 1 fires exactly on a transition into the
trigger level with the shared cooldown elapsed; and once an iteration has
observed sensor 1 at the trigger level, holding it there through any
further sensor polls adds no further votes — a continuous hold yields
exactly one vote in total (at the covering transition, cooldown
permitting), not one per poll iteration and not one per cooldown window. -/
theorem C3_amended_single_vote (vs : VoteState) (sp : StepperState) (now : Nat)
    (r1 r2 : Int) (trace : List (Nat × Int × Int))
    (hheld : ∀ e ∈ trace, e.2.1 = TRIGGER_STATE) :
    ((sensorPoll vs sp now r1 r2).1.pendingVotesA = vs.pendingVotesA + 1
      ↔ (r1 = TRIGGER_STATE ∧ vs.lastLdrState1 ≠ TRIGGER_STATE
          ∧ VOTE_COOLDOWN < usub32 now vs.lastVoteTime))
    ∧ (r1 = TRIGGER_STATE →
        (pollTrace (sensorPoll vs sp now r1 r2).1 (sensorPoll vs sp now r1 r2).2
            trace).1.pendingVotesA
          = (sensorPoll vs sp now r1 r2).1.pendingVotesA) := by
  constructor
  · rw [sensorPoll_A]
    split_ifs with hc
    · simp [hc]
    · constructor
      · intro habs
        omega
      · intro hcc
        exact absurd hcc hc
  · intro hr1
    exact pollTrace_hold trace _ _ (by rw [sensorPoll_last1]; exact hr1) hheld

/-- C3 counterexample: from boot, sensor 1 held at the trigger level
through idle iterations at 4000, 8000 and 12000 ms — more than two full
cooldown windows — yields exactly one pending A vote, not one vote per
cooldown window. -/
theorem C3_counterexample :
    (pollTrace bootVotes bootStepper
        [(4000, 0, 1), (8000, 0, 1), (12000, 0, 1)]).1.pendingVotesA = 1
    ∧ 2 * VOTE_COOLDOWN < 12000 - 4000 := by
  decide

/-- C3 witness: the transition at 4000 ms from boot fires the vote. -/
theorem C3_witness :
    (sensorPoll bootVotes bootStepper 4000 0 1).1.pendingVotesA = bootVotes.pendingVotesA + 1
      ↔ ((0 : Int) = TRIGGER_STATE ∧ bootVotes.lastLdrState1 ≠ TRIGGER_STATE
          ∧ VOTE_COOLDOWN < usub32 4000 bootVotes.lastVoteTime) :=
  (C3_amended_single_vote bootVotes bootStepper 4000 0 1 [(8000, 0, 1)] (by decide)).1

/-- C7 counterexample: a first `/quiz` request stores a 17-character
answer 1 (separator appended, scroll mode); a second request omitting
`a1` nevertheless changes the stored buffer by appending the separator a
second time, contradicting "each omitted field leaves its prior stored
text unchanged (with the separator appended at most once)". -/
theorem C7_counterexample :
    (handleQuiz none (some ("ABCDEFGHIJKLMNOPQ".toList)) none bootDisplay 1000).ans1Text
      = "ABCDEFGHIJKLMNOPQ".toList ++ SEP
    ∧ (handleQuiz none none none
        (handleQuiz none (some ("ABCDEFGHIJKLMNOPQ".toList)) none bootDisplay 1000)
        2000).ans1Text
      = "ABCDEFGHIJKLMNOPQ".toList ++ SEP ++ SEP
    ∧ (handleQuiz none none none
        (handleQuiz none (some ("ABCDEFGHIJKLMNOPQ".toList)) none bootDisplay 1000)
        2000).ans1Text
      ≠ (handleQuiz none (some ("ABCDEFGHIJKLMNOPQ".toList)) none bootDisplay 1000).ans1Text := by
  decide

/-- C7 amended: every `/quiz` request forces the question page, stamps
`lastPageSwap = millis() - LCD_PAGE_INTERVAL`, and zeroes all three
scroll cursors; an omitted field keeps its prior stored text except that
a buffer ending up in scroll mode gets the separator suffix appended
again on every such request. -/
theorem C7_amended_quiz_frame (q a1 a2 : Option (List Char)) (d : DisplayState) (now : Nat) :
    (handleQuiz q a1 a2 d now).showQuestion = true
    ∧ (handleQuiz q a1 a2 d now).lastPageSwap = usub32 now LCD_PAGE_INTERVAL
    ∧ (handleQuiz q a1 a2 d now).scrollPosQ = 0
    ∧ (handleQuiz q a1 a2 d now).scrollPosA1 = 0
    ∧ (handleQuiz q a1 a2 d now).scrollPosA2 = 0
    ∧ (q = none → (handleQuiz q a1 a2 d now).quizText
        = (if (formatQuestion d.quizText).scrollQ then d.quizText ++ SEP else d.quizText))
    ∧ (a1 = none → (handleQuiz q a1 a2 d now).ans1Text
        = (if 16 < d.ans1Text.length then d.ans1Text ++ SEP else d.ans1Text))
    ∧ (a2 = none → (handleQuiz q a1 a2 d now).ans2Text
        = (if 16 < d.ans2Text.length then d.ans2Text ++ SEP else d.ans2Text)) := by
  refine ⟨rfl, rfl, rfl, rfl, rfl, ?_, ?_, ?_⟩ <;>
    · rintro rfl
      rfl

/-- C7 witness: an all-omitted `/quiz` request on the boot display keeps
the question text (it is static, so no separator is appended). -/
theorem C7_witness :
    (handleQuiz none none none bootDisplay 5000).quizText
      = (if (formatQuestion bootDisplay.quizText).scrollQ
          then bootDisplay.quizText ++ SEP else bootDisplay.quizText) :=
  (C7_amended_quiz_frame none none none bootDisplay 5000).2.2.2.2.2.1 rfl

/-- C8: in every `loop()` iteration exactly one of the two actions runs
after the network and LCD sections — with a move outstanding the motor
advances one tick and the vote state is untouched; otherwise the rotor
does not move and the sensor branch runs — so a vote is never registered
while `distanceToGo != 0`. -/
theorem C8_motion_sensor_exclusive (m : MachineState) (req : Option Request)
    (now : Nat) (r1 r2 : Int) :
    (distanceToGo (lcdPhase (netStep m req now) now).stepper ≠ 0 →
      (loopIteration m req now r1 r2).votes = (lcdPhase (netStep m req now) now).votes
      ∧ (loopIteration m req now r1 r2).stepper
          = runTick (lcdPhase (netStep m req now) now).stepper)
    ∧ (distanceToGo (lcdPhase (netStep m req now) now).stepper = 0 →
      (loopIteration m req now r1 r2).stepper.currentPosition
        = (lcdPhase (netStep m req now) now).stepper.currentPosition
      ∧ (loopIteration m req now r1 r2).votes
        = (sensorPoll (lcdPhase (netStep m req now) now).votes
            (disableOutputs (lcdPhase (netStep m req now) now).stepper) now r1 r2).1) := by
  unfold loopIteration motorSensorStep
  constructor
  · intro h
    rw [if_pos h]
    exact ⟨rfl, rfl⟩
  · intro h
    rw [if_neg (fun hn => hn h)]
    refine ⟨?_, rfl⟩
    show (sensorPoll (lcdPhase (netStep m req now) now).votes
        (disableOutputs (lcdPhase (netStep m req now) now).stepper) now r1 r2).2.currentPosition = _
    rw [sensorPoll_pos]
    rfl

/-- C8 witness: with 10 steps outstanding the iteration only advances the
motor, leaving the vote state exactly as it was. -/
theorem C8_witness :
    (loopIteration ⟨⟨0, 10, true⟩, bootVotes, bootDisplay⟩ none 0 1 1).votes
      = (lcdPhase (netStep ⟨⟨0, 10, true⟩, bootVotes, bootDisplay⟩ none 0) 0).votes :=
  ((C8_motion_sensor_exclusive ⟨⟨0, 10, true⟩, bootVotes, bootDisplay⟩ none 0 1 1).1
    (by decide)).1

/-- The downward space search returns the largest index `j ≤ i` holding a
space, when one exists. -/
theorem findLastSpaceDown_eq (cs : List Char) :
    ∀ (i j : Nat), j ≤ i → cs.getD j 'x' = ' ' →
    (∀ k, j < k → k ≤ i → cs.getD k 'x' ≠ ' ') →
    findLastSpaceDown cs i = (j : Int) := by
  intro i
  induction i with
  | zero =>
    intro j hj hs _
    have hj0 : j = 0 := by omega
    subst hj0
    simp only [findLastSpaceDown]
    rw [if_pos hs]
    omega
  | succ n ih =>
    intro j hj hs hmax
    by_cases he : j = n + 1
    · subst he
      simp only [findLastSpaceDown]
      rw [if_pos hs]
      omega
    · have hn1 : cs.getD (n + 1) 'x' ≠ ' ' := hmax (n + 1) (by omega) (le_refl _)
      simp only [findLastSpaceDown]
      rw [if_neg hn1]
      exact ih j (by omega) hs (fun k hk1 hk2 => hmax k hk1 (by omega))

/-- The downward space search returns -1 when no index `≤ i` holds a
space. -/
theorem findLastSpaceDown_neg (cs : List Char) :
    ∀ i : Nat, (∀ k, k ≤ i → cs.getD k 'x' ≠ ' ') → findLastSpaceDown cs i = -1 := by
  intro i
  induction i with
  | zero =>
    intro h
    simp only [findLastSpaceDown]
    rw [if_neg (h 0 (le_refl _))]
  | succ n ih =>
    intro h
    simp only [findLastSpaceDown]
    rw [if_neg (h (n + 1) (le_refl _))]
    exact ih (fun k hk => h k (by omega))

/-- C6 counterexample: the 17-character text `" abcdefghijklmnop"` has
its last (only) space at or before column 16 at index 0, and the two
halves around it (lengths 0 and 16) both fit in 16 columns, so the claim
requires a two-line static split; `formatQuestion` nevertheless selects
scroll mode, because its split requires a strictly positive space index. -/
theorem C6_counterexample :
    (" abcdefghijklmnop".toList).length = 17
    ∧ (" abcdefghijklmnop".toList).getD 0 'x' = ' '
    ∧ ((" abcdefghijklmnop".toList).drop 1).all (fun c => c ≠ ' ') = true
    ∧ ((" abcdefghijklmnop".toList).drop 1).length ≤ 16
    ∧ (formatQuestion (" abcdefghijklmnop".toList)).scrollQ = true := by
  decide

/-- C6 amended: text of length ≤ 16 is one static line; length > 32
always scrolls; for length 17-32, when the last space at an index ≤ 16 is
at a strictly positive index `j`, the text splits at `j` into two static
lines exactly when both halves fit in 16 columns (else it scrolls), and
when there is no space at an index in [1, 16] it scrolls. -/
theorem C6_amended_layout :
    (∀ t : List Char, t.length ≤ 16 → formatQuestion t = ⟨t, [], false⟩)
    ∧ (∀ t : List Char, 32 < t.length → formatQuestion t = ⟨[], [], true⟩)
    ∧ (∀ (t : List Char) (j : Nat), 17 ≤ t.length → t.length ≤ 32 → 1 ≤ j → j ≤ 16 →
        t.getD j 'x' = ' ' → (∀ k, j < k → k ≤ 16 → t.getD k 'x' ≠ ' ') →
        formatQuestion t
          = if t.length ≤ j + 17 then ⟨t.take j, t.drop (j + 1), false⟩
            else ⟨[], [], true⟩)
    ∧ (∀ t : List Char, 17 ≤ t.length → t.length ≤ 32 →
        (∀ k, 1 ≤ k → k ≤ 16 → t.getD k 'x' ≠ ' ') →
        (formatQuestion t).scrollQ = true) := by
  refine ⟨?_, ?_, ?_, ?_⟩
  · intro t h
    simp only [formatQuestion]
    rw [if_pos h]
  · intro t h
    simp only [formatQuestion]
    rw [if_neg (by omega), if_neg (by omega)]
  · intro t j h17 h32 hj1 hj16 hsp hmax
    have hmin : min 16 (t.length - 1) = 16 := by omega
    have hfind : findLastSpaceDown t (min 16 (t.length - 1)) = (j : Int) := by
      rw [hmin]
      exact findLastSpaceDown_eq t 16 j (by omega) hsp hmax
    simp only [formatQuestion]
    rw [if_neg (by omega), if_pos h32, hfind, if_pos (by omega), Int.toNat_ofNat]
    by_cases hc : t.length ≤ j + 17
    · rw [if_pos ⟨by simp only [List.length_take]; omega,
          by simp only [List.length_drop]; omega⟩, if_pos hc]
    · rw [if_neg (fun hab => by
          have := hab.2
          simp only [List.length_drop] at this
          omega), if_neg hc]
  · intro t h17 h32 hno
    have hmin : min 16 (t.length - 1) = 16 := by omega
    simp only [formatQuestion]
    rw [if_neg (by omega), if_pos h32]
    by_cases h0 : t.getD 0 'x' = ' '
    · rw [hmin, findLastSpaceDown_eq t 16 0 (by omega) h0
        (fun k hk1 hk2 => hno k (by omega) hk2)]
      rw [if_neg (by omega)]
    · rw [hmin, findLastSpaceDown_neg t 16 (fun k hk => by
        rcases Nat.eq_zero_or_pos k with hk0 | hkpos
        · subst hk0
          exact h0
        · exact hno k (by omega) hk)]
      rw [if_neg (by omega)]

/-- C6 witness: the 20-character text with its only space at index 10
splits into the static halves of lengths 10 and 9. -/
theorem C6_witness :
    formatQuestion ("AAAAAAAAAA BBBBBBBBB".toList)
      = if ("AAAAAAAAAA BBBBBBBBB".toList).length ≤ 10 + 17
        then ⟨("AAAAAAAAAA BBBBBBBBB".toList).take 10,
              ("AAAAAAAAAA BBBBBBBBB".toList).drop (10 + 1), false⟩
        else ⟨[], [], true⟩ :=
  C6_amended_layout.2.2.1 ("AAAAAAAAAA BBBBBBBBB".toList) 10 (by decide) (by decide)
    (by decide) (by decide) (by decide)
    (by intro k hk1 hk2; interval_cases k <;> decide)

/-- C9 witness: at 4000 ms of uptime a covered sensor 1 yields the vote. -/
theorem C9_witness :
    (sensorPoll bootVotes bootStepper 4000 TRIGGER_STATE 1).1.pendingVotesA = 1 :=
  (C9_boot_immediate_vote 4000 1 (by decide) (by decide)).2.2.2

/-- C10: every line render writes exactly 16 characters.  In static mode
(used only with texts of at most 16 characters) the text is padded with
trailing spaces to column 16 and the cursor is untouched; in scroll mode
the rendered characters are the 16-character circular window of the text
starting at the cursor, and the updated cursor stays in `[0, length)`.
Hence replacing a static text with a shorter one leaves no residue. -/
theorem C10_line_render (text : List Char) (pos : Nat) :
    (text.length ≤ 16 →
      printLcdLine text pos false = (text ++ List.replicate (16 - text.length) ' ', pos)
      ∧ (printLcdLine text pos false).1.length = 16)
    ∧ (16 ≤ text.length → pos < text.length →
      (printLcdLine text pos true).1 = ((text ++ text).drop pos).take 16
      ∧ (printLcdLine text pos true).1.length = 16
      ∧ (printLcdLine text pos true).2 < text.length) := by
  constructor
  · intro h
    refine ⟨rfl, ?_⟩
    show (text ++ List.replicate (16 - text.length) ' ').length = 16
    simp only [List.length_append, List.length_replicate]
    omega
  · intro h16 hp
    have hdrop : (text ++ text).drop pos = text.drop pos ++ text :=
      List.drop_append_of_le_length (le_of_lt hp)
    have hd0 : (text.take (pos + 16)).drop pos = (text.drop pos).take 16 := by
      rw [List.drop_take]
      congr 1
      omega
    have hwin : (printLcdLine text pos true).1 = ((text ++ text).drop pos).take 16 := by
      show (if ((text.take (pos + 16)).drop pos).length < 16
            then (text.take (pos + 16)).drop pos
              ++ text.take (16 - ((text.take (pos + 16)).drop pos).length)
            else (text.take (pos + 16)).drop pos)
          = ((text ++ text).drop pos).take 16
      rw [hd0, hdrop, List.take_append_eq_append_take]
      by_cases hc : pos + 16 ≤ text.length
      · have hlen : ((text.drop pos).take 16).length = 16 := by
          simp only [List.length_take, List.length_drop]
          omega
        rw [if_neg (by rw [hlen]; omega)]
        have h2 : 16 - (text.drop pos).length = 0 := by
          simp only [List.length_drop]
          omega
        rw [h2, List.take_zero, List.append_nil]
      · have hshort : (text.drop pos).take 16 = text.drop pos :=
          List.take_of_length_le (by simp only [List.length_drop]; omega)
        rw [hshort]
        rw [if_pos (by simp only [List.length_drop]; omega)]
    refine ⟨hwin, ?_, ?_⟩
    · rw [hwin]
      simp only [List.length_take, List.length_drop, List.length_append]
      omega
    · show (if text.length ≤ pos + 1 then 0 else pos + 1) < text.length
      split_ifs with hc <;> omega

/-- C10 witness: scrolling a 17-character text from cursor 3 renders the
16-character circular window starting at index 3. -/
theorem C10_witness :
    (printLcdLine ("ABCDEFGHIJKLMNOPQ".toList) 3 true).1
      = ((("ABCDEFGHIJKLMNOPQ".toList) ++ ("ABCDEFGHIJKLMNOPQ".toList)).drop 3).take 16 :=
  ((C10_line_render ("ABCDEFGHIJKLMNOPQ".toList) 3).2 (by decide) (by decide)).1

end QuizMotor
